import Mathlib

/-!
Verification of the FIM (file integrity monitoring) baseline/diff engine of the
Ansible-Baseline-FIM-and-CMDB lab toolkit.

The embedding follows the two Python agents:
* `src/fim/agents/fim-agent.py` (the "basic" variant): `should_monitor_path`,
  `scan_directory`, `compare_with_baseline`, `report_changes`, `perform_scan`,
  `save_baseline`, `load_baseline`.
* `src/fim/agents/fim-agent-prometheus.py` (the "Prometheus" variant):
  `is_excluded_path`, `create_baseline`, `load_baseline`, `scan_files`,
  `check_file`, `save_report`, `update_baseline`.

Python dicts keyed by absolute path are modelled as association lists with
pairwise-distinct keys (`wf`); the filesystem as seen by one `os.walk` pass is
modelled as a list of (path, Option FileInfo) pairs, where `none` stands for a
file whose hash computation failed (`calculate_file_hash` returned `None`).
Timestamps (`datetime.now().isoformat()`) are threaded as an opaque string
parameter `now`. Bookkeeping-only dict fields that no code reads back
(`scanned_at` in the basic variant, `type` in the Prometheus variant) are not
modelled.
-/

namespace FIM

/-- One baseline/snapshot entry: the value stored under a path key, as built by
`scan_directory` / `create_baseline`: content hash, byte size, mtime. -/
structure FileInfo where
  hash : String
  size : Nat
  mtime : Nat
  deriving Repr, DecidableEq

/-- A snapshot / baseline: a Python dict from absolute path to `FileInfo`,
modelled as an association list. -/
abbrev Snapshot := List (String × FileInfo)

/-- Dict lookup (`baseline[file_path]`, `file_path in baseline`). -/
def lookupPath (p : String) : Snapshot → Option FileInfo
  | [] => none
  | (q, i) :: rest => if q = p then some i else lookupPath p rest

/-- Well-formedness of the dict model: no two entries share a path key. Always
true of a real Python dict. -/
def wf (s : Snapshot) : Prop := (s.map Prod.fst).Nodup

instance (s : Snapshot) : Decidable (wf s) :=
  inferInstanceAs (Decidable ((s.map Prod.fst).Nodup))

/-- The `type` tag of a change record. -/
inductive ChangeType
  | new
  | modified
  | deleted
  deriving Repr, DecidableEq

/-- A change record, as appended to `changes` by either agent. Optional fields
mirror the dict keys each branch actually sets: the basic agent's MODIFIED
records set `old_hash`/`new_hash`, its NEW records set `hash`, its DELETED
records set `old_hash`; the Prometheus agent's DELETED records set none of the
hash keys. (`file` also stands for the Prometheus variant's `path` key.) -/
structure Change where
  ctype : ChangeType
  file : String
  old_hash : Option String := none
  new_hash : Option String := none
  hash : Option String := none
  timestamp : String
  deriving Repr, DecidableEq

/-! ## Diff engine: `FIMAgent.compare_with_baseline` (fim-agent.py lines 173-208) -/

/-- The body of the first loop of `compare_with_baseline`: for one entry of
`current_hashes`, emit a MODIFIED record when the path is in the baseline with
a differing hash, a NEW record when it is absent, nothing when the hash is
unchanged. -/
def currentEntryChange (baseline : Snapshot) (now : String) (e : String × FileInfo) :
    Option Change :=
  match lookupPath e.1 baseline with
  | some bi =>
    if e.2.hash ≠ bi.hash then
      some { ctype := .modified, file := e.1, old_hash := some bi.hash,
             new_hash := some e.2.hash, timestamp := now }
    else
      none
  | none =>
    some { ctype := .new, file := e.1, hash := some e.2.hash, timestamp := now }

/-- The body of the second loop of `compare_with_baseline`: for one entry of
the baseline, emit a DELETED record (carrying the baseline hash as `old_hash`)
when the path is absent from `current_hashes`. -/
def deletedEntryChange (current : Snapshot) (now : String) (e : String × FileInfo) :
    Option Change :=
  if lookupPath e.1 current = none then
    some { ctype := .deleted, file := e.1, old_hash := some e.2.hash, timestamp := now }
  else
    none

/-- `FIMAgent.compare_with_baseline` of the basic agent: first loop over the
current snapshot (MODIFIED/NEW), then loop over the baseline (DELETED). -/
def compare_with_baseline (baseline current : Snapshot) (now : String) : List Change :=
  current.filterMap (currentEntryChange baseline now)
    ++ baseline.filterMap (deletedEntryChange current now)

/-! ## Path classifier -/

/-- Python's `str.startswith`, on the character sequence of the strings. -/
def strStartsWith (s pre : String) : Bool :=
  pre.data.isPrefixOf s.data

/-- Python's `str.endswith`, on the character sequence of the strings. -/
def strEndsWith (s suf : String) : Bool :=
  suf.data.isSuffixOf s.data

/-- Python's `s[:-n]` slice: drop the last `n` characters. -/
def strDropRight (s : String) (n : Nat) : String :=
  ⟨s.data.take (s.data.length - n)⟩

/-- One exclusion rule check, shared by both agents: a rule ending in `*`
matches every path starting with the rule minus its final character; any other
rule matches the exact path or any path below it (`rule + "/"` prefix). -/
def matchesExclusion (excluded path : String) : Bool :=
  if strEndsWith excluded "*" then
    strStartsWith path (strDropRight excluded 1)
  else
    path == excluded || strStartsWith path (excluded ++ "/")

/-- `FIMAgent.is_excluded_path` of the Prometheus agent (lines 134-142): true
iff some configured exclusion rule matches. -/
def is_excluded_path (excludedPaths : List String) (path : String) : Bool :=
  excludedPaths.any fun e => matchesExclusion e path

/-- `FIMAgent.should_monitor_path` of the basic agent (lines 103-123):
exclusions are evaluated first and short-circuit to `false`; otherwise the path
is monitored iff it starts with some monitored root. -/
def should_monitor_path (excludedPaths monitoredPaths : List String) (path : String) : Bool :=
  if is_excluded_path excludedPaths path then
    false
  else
    monitoredPaths.any fun m => strStartsWith path m

/-! ## Snapshot builders

`Disk` is the population of regular files one `os.walk` pass over the monitored
roots enumerates, in walk order, each paired with the outcome of hashing it:
`some info` on success, `none` when `calculate_file_hash` returned `None`.
`os.path.exists` for such a file is membership in the list. -/

abbrev Disk := List (String × Option FileInfo)

/-- `FIMAgent.scan_directory` of the basic agent (lines 125-146), hoisted over
the walk: a file enters the snapshot iff `should_monitor_path` accepts it and
its hash succeeded. -/
def scan_directory (excludedPaths monitoredPaths : List String) (disk : Disk) : Snapshot :=
  disk.filterMap fun e =>
    if should_monitor_path excludedPaths monitoredPaths e.1 then
      e.2.map fun i => (e.1, i)
    else
      none

/-- The snapshot built by `FIMAgent.create_baseline` of the Prometheus agent
(lines 144-198): a file enters iff it is not excluded and its hash succeeded
(no monitored-root test beyond the walk itself). -/
def create_baseline_snapshot (excludedPaths : List String) (disk : Disk) : Snapshot :=
  disk.filterMap fun e =>
    if is_excluded_path excludedPaths e.1 then
      none
    else
      e.2.map fun i => (e.1, i)

/-! ## Prometheus-variant scan: `FIMAgent.check_file` / `FIMAgent.scan_files`
(fim-agent-prometheus.py lines 222-308) -/

/-- `FIMAgent.check_file`: for a walked path, compare against the baseline.
`hashResult` is what `calculate_file_hash` returned (`none` on failure). A
baseline path whose hash fails produces nothing (`if current_hash and ...`); a
non-baseline path whose hash fails likewise produces nothing. The Prometheus
MODIFIED record carries `old_hash`/`new_hash`; its NEW record carries `hash`. -/
def check_file (baseline : Snapshot) (now : String) (p : String)
    (hashResult : Option String) : Option Change :=
  match lookupPath p baseline with
  | some bi =>
    match hashResult with
    | some h =>
      if h ≠ bi.hash then
        some { ctype := .modified, file := p, old_hash := some bi.hash,
               new_hash := some h, timestamp := now }
      else
        none
    | none => none
  | none =>
    match hashResult with
    | some h => some { ctype := .new, file := p, hash := some h, timestamp := now }
    | none => none

/-- Whether a path currently exists on disk (`os.path.exists`): membership in
the walked file population. -/
def diskHas (disk : Disk) (p : String) : Bool :=
  disk.any fun e => e.1 = p

/-- The change list `FIMAgent.scan_files` accumulates: `check_file` over every
walked, non-excluded path (NEW/MODIFIED), then a DELETED record — carrying no
fingerprint, only path and timestamp — for every baseline path that no longer
exists on disk. The DELETED loop consults only `os.path.exists`, not the hash
results. -/
def scan_files_changes (excludedPaths : List String) (baseline : Snapshot)
    (disk : Disk) (now : String) : List Change :=
  (disk.filterMap fun e =>
    if is_excluded_path excludedPaths e.1 then
      none
    else
      check_file baseline now e.1 (e.2.map FileInfo.hash))
    ++ baseline.filterMap fun b =>
      if diskHas disk b.1 then
        none
      else
        some { ctype := .deleted, file := b.1, timestamp := now }

/-! ## Scheduler outcomes

The per-cycle control flow after the diff, as explicit effect records. -/

/-- Effects of one `FIMAgent.perform_scan` cycle of the basic agent (lines
242-264): `report_changes` and `send_alert` run only when the change list is
non-empty (`send_alert` additionally requires `alert_on_change`); then
`save_baseline(all_hashes)` runs unconditionally, persisting the fresh
snapshot whether or not anything changed. -/
structure BasicScanOutcome where
  changes : List Change
  reportAppended : Bool
  alertSent : Bool
  baselineSaved : Bool
  savedBaseline : Snapshot
  deriving Repr, DecidableEq

def perform_scan_outcome (baseline current : Snapshot) (alert_on_change : Bool)
    (now : String) : BasicScanOutcome :=
  let changes := compare_with_baseline baseline current now
  { changes := changes
    reportAppended := !changes.isEmpty
    alertSent := !changes.isEmpty && alert_on_change
    baselineSaved := true
    savedBaseline := current }

/-- Effects of one `FIMAgent.scan_files` cycle of the Prometheus agent (lines
266-279): inside `if changes:`, the critical alert fires iff
`len(changes) >= alert_threshold`, then `save_report` and `update_baseline`
run; with no changes none of the three happens. -/
structure PromScanOutcome where
  changes : List Change
  alertFired : Bool
  reportSaved : Bool
  baselineUpdated : Bool
  deriving Repr, DecidableEq

def scan_files_outcome (excludedPaths : List String) (alert_threshold : Nat)
    (baseline : Snapshot) (disk : Disk) (now : String) : PromScanOutcome :=
  let changes := scan_files_changes excludedPaths baseline disk now
  if changes.isEmpty then
    { changes := changes, alertFired := false, reportSaved := false,
      baselineUpdated := false }
  else
    { changes := changes
      alertFired := decide (alert_threshold ≤ changes.length)
      reportSaved := true
      baselineUpdated := true }

/-! ## Baseline store: load -/

/-- Result of a baseline load: the snapshot handed to the scan, plus whether a
fresh baseline was built and persisted as a side effect. `stored` is the
persisted baseline, `none` when no baseline file exists yet. -/
structure LoadOutcome where
  snapshot : Snapshot
  baselineCreated : Bool
  deriving Repr, DecidableEq

/-- `FIMAgent.load_baseline` of the basic agent (fim-agent.py lines 160-171):
returns the stored baseline, or the empty dict when none exists; never writes. -/
def load_baseline_basic (stored : Option Snapshot) : LoadOutcome :=
  match stored with
  | some b => { snapshot := b, baselineCreated := false }
  | none => { snapshot := [], baselineCreated := false }

/-- `FIMAgent.load_baseline` of the Prometheus agent (lines 200-220): returns
the stored baseline when the file exists; otherwise calls `create_baseline`,
which walks the disk, persists the fresh baseline, and returns it. -/
def load_baseline_prom (stored : Option Snapshot) (excludedPaths : List String)
    (disk : Disk) : LoadOutcome :=
  match stored with
  | some b => { snapshot := b, baselineCreated := false }
  | none =>
    { snapshot := create_baseline_snapshot excludedPaths disk, baselineCreated := true }

/-! ## Report persistence -/

/-- One persisted report record: `{timestamp, changes, total_changes}`. -/
structure Report where
  timestamp : String
  changes : List Change
  total_changes : Nat
  deriving Repr, DecidableEq

/-- The report records persisted after `FIMAgent.report_changes` of the basic
agent (fim-agent.py lines 210-240): with no changes nothing is written;
otherwise the existing record list is re-read and the new record appended. -/
def report_changes_store (existing : List Report) (changes : List Change)
    (now : String) : List Report :=
  if changes.isEmpty then
    existing
  else
    existing ++ [{ timestamp := now, changes := changes, total_changes := changes.length }]

/-- The report records persisted after `FIMAgent.save_report` of the Prometheus
agent (lines 310-324): the report file is opened for writing and receives only
the single record of this cycle — whatever was persisted before is gone. -/
def save_report_store (_existing : List Report) (changes : List Change)
    (now : String) : List Report :=
  [{ timestamp := now, changes := changes, total_changes := changes.length }]

/-! ## Baseline persistence mechanism

`save_baseline` (fim-agent.py lines 148-158) and `create_baseline`'s write
(fim-agent-prometheus.py lines 185-190) both run `open(baseline_file, 'w')`
followed by `json.dump`: the target file itself is truncated, then the new
content is written into it. Modelled as a sequence of primitive filesystem
operations interpreted over a path → content map. -/

inductive FSOp
  | openTrunc (path : String)
  | writeAll (path : String) (data : String)
  | rename (src dst : String)
  deriving Repr, DecidableEq

abbrev FS := List (String × String)

def setFile (fs : FS) (p v : String) : FS :=
  match fs with
  | [] => [(p, v)]
  | (q, w) :: rest => if q = p then (p, v) :: rest else (q, w) :: setFile rest p v

def getFile (fs : FS) (p : String) : Option String :=
  match fs with
  | [] => none
  | (q, w) :: rest => if q = p then some w else getFile rest p

def removeFile (fs : FS) (p : String) : FS :=
  fs.filter fun e => !(e.1 = p : Bool)

def applyOp (fs : FS) : FSOp → FS
  | .openTrunc p => setFile fs p ""
  | .writeAll p d => setFile fs p d
  | .rename src dst =>
    match getFile fs src with
    | some v => setFile (removeFile fs src) dst v
    | none => fs

def runOps (fs : FS) (ops : List FSOp) : FS :=
  ops.foldl applyOp fs

/-- The filesystem operations `save_baseline` / `create_baseline` perform on
the baseline file: truncate-on-open, then write the serialized snapshot. No
temporary file, no rename. -/
def save_baseline_ops (baseline_file data : String) : List FSOp :=
  [FSOp.openTrunc baseline_file, FSOp.writeAll baseline_file data]

/-- True when an operation is a rename. -/
def isRename : FSOp → Bool
  | .rename _ _ => true
  | _ => false

/-! ## Generic association-list lemmas -/

theorem lookupPath_eq_none_iff (p : String) (s : Snapshot) :
    lookupPath p s = none ↔ ∀ e ∈ s, e.1 ≠ p := by
  induction s with
  | nil => simp [lookupPath]
  | cons e rest ih =>
    obtain ⟨q, i⟩ := e
    by_cases hq : q = p
    · subst hq
      simp [lookupPath]
    · simp [lookupPath, hq, ih]

theorem lookupPath_cons_self (p : String) (i : FileInfo) (rest : Snapshot) :
    lookupPath p ((p, i) :: rest) = some i := by
  simp [lookupPath]

theorem lookupPath_cons_ne {q p : String} (h : q ≠ p) (i : FileInfo) (rest : Snapshot) :
    lookupPath p ((q, i) :: rest) = lookupPath p rest := by
  simp [lookupPath, h]

theorem lookupPath_mem (s : Snapshot) (hs : wf s) {p : String} {i : FileInfo}
    (h : (p, i) ∈ s) : lookupPath p s = some i := by
  induction s with
  | nil => cases h
  | cons e rest ih =>
    obtain ⟨q, j⟩ := e
    rw [wf, List.map_cons, List.nodup_cons] at hs
    have hq1 : q ∉ List.map Prod.fst rest := hs.1
    rcases List.mem_cons.mp h with h1 | h1
    · rw [Prod.mk.injEq] at h1
      rw [← h1.1, ← h1.2, lookupPath_cons_self]
    · have hq : q ≠ p := by
        intro hqp
        apply hq1
        rw [hqp]
        exact List.mem_map_of_mem Prod.fst h1
      rw [lookupPath_cons_ne hq]
      exact ih hs.2 h1

theorem mem_key_unique {α β : Type} [DecidableEq α] {l : List (α × β)}
    (h : (l.map Prod.fst).Nodup) {p : α} {a b : β}
    (ha : (p, a) ∈ l) (hb : (p, b) ∈ l) : a = b := by
  induction l with
  | nil => cases ha
  | cons e rest ih =>
    rw [List.map_cons, List.nodup_cons] at h
    rcases List.mem_cons.mp ha with h1 | h1 <;> rcases List.mem_cons.mp hb with h2 | h2
    · rw [← h1, Prod.mk.injEq] at h2
      exact h2.2.symm
    · exfalso
      apply h.1
      rw [← h1]
      show p ∈ List.map Prod.fst rest
      exact List.mem_map_of_mem Prod.fst h2
    · exfalso
      apply h.1
      rw [← h2]
      show p ∈ List.map Prod.fst rest
      exact List.mem_map_of_mem Prod.fst h1
    · exact ih h.2 h1 h2

/-- Filtering the records a keyed `filterMap` produces down to one path `p`
keeps exactly the image of the entry keyed `p`, provided every produced record
names its own entry's key and keys are distinct. -/
theorem filterMap_filter_key (g : String × FileInfo → Option Change) (p : String)
    (hg : ∀ e r, g e = some r → r.file = e.1) :
    ∀ l : Snapshot, wf l →
      (l.filterMap g).filter (fun r => r.file = p) =
        (match lookupPath p l with
         | some i => (g (p, i)).toList
         | none => []) := by
  intro l
  induction l with
  | nil => intro _; simp [lookupPath]
  | cons e rest ih =>
    intro hwf
    obtain ⟨q, i⟩ := e
    rw [wf, List.map_cons, List.nodup_cons] at hwf
    have hq1 : q ∉ List.map Prod.fst rest := hwf.1
    have hrest := ih hwf.2
    by_cases hq : q = p
    · subst hq
      have hnone : lookupPath q rest = none := by
        rw [lookupPath_eq_none_iff]
        intro e he heq
        apply hq1
        rw [← heq]
        exact List.mem_map_of_mem Prod.fst he
      rw [hnone] at hrest
      rw [lookupPath_cons_self]
      cases hge : g (q, i) with
      | none =>
        simp only [List.filterMap_cons, hge, hrest, Option.toList]
      | some r =>
        have hr : r.file = q := hg _ _ hge
        simp only [List.filterMap_cons, hge, Option.toList, List.filter_cons]
        simp [hr, hrest]
    · rw [lookupPath_cons_ne hq]
      cases hge : g (q, i) with
      | none =>
        simp only [List.filterMap_cons, hge, hrest]
      | some r =>
        have hr : r.file = q := hg _ _ hge
        simp only [List.filterMap_cons, hge, List.filter_cons]
        simp [hr, hq, hrest]

theorem check_file_file (baseline : Snapshot) (now p : String) (hr : Option String)
    (r : Change) (h : check_file baseline now p hr = some r) : r.file = p := by
  unfold check_file at h
  split at h
  · split at h
    · split at h
      · cases h; rfl
      · cases h
    · cases h
  · split at h
    · cases h; rfl
    · cases h

theorem check_file_hash_none (baseline : Snapshot) (now p : String) :
    check_file baseline now p none = none := by
  unfold check_file
  split <;> rfl

theorem check_file_not_deleted (baseline : Snapshot) (now p : String) (hr : Option String)
    (r : Change) (h : check_file baseline now p hr = some r) : r.ctype ≠ ChangeType.deleted := by
  unfold check_file at h
  split at h
  · split at h
    · split at h
      · cases h; intro hk; cases hk
      · cases h
    · cases h
  · split at h
    · cases h; intro hk; cases hk
    · cases h

theorem currentEntryChange_file (baseline : Snapshot) (now : String)
    (e : String × FileInfo) (r : Change) (h : currentEntryChange baseline now e = some r) :
    r.file = e.1 := by
  unfold currentEntryChange at h
  split at h
  · split at h
    · cases h; rfl
    · cases h
  · cases h; rfl

theorem deletedEntryChange_file (current : Snapshot) (now : String)
    (e : String × FileInfo) (r : Change) (h : deletedEntryChange current now e = some r) :
    r.file = e.1 := by
  unfold deletedEntryChange at h
  split at h
  · cases h; rfl
  · cases h

/-! ## Claim theorems -/

/-- C1: for well-formed snapshots (baseline, current) and any path `p`, the
records of `compare_with_baseline` whose path is `p` are exactly: one NEW
record carrying current's fingerprint when `p` is only in current; one
MODIFIED record carrying baseline's fingerprint as old and current's as new
when `p` is in both with differing fingerprints; nothing when the fingerprints
are equal; one DELETED record when `p` is only in the baseline. In particular
no path appears in more than one record. -/
theorem c1_diff_classification (b c : Snapshot) (now p : String) (hb : wf b) (hc : wf c) :
    (compare_with_baseline b c now).filter (fun r => r.file = p) =
      (match lookupPath p b, lookupPath p c with
       | none, some ci =>
         [{ ctype := .new, file := p, hash := some ci.hash, timestamp := now }]
       | some bi, some ci =>
         if bi.hash = ci.hash then []
         else [{ ctype := .modified, file := p, old_hash := some bi.hash,
                 new_hash := some ci.hash, timestamp := now }]
       | some bi, none =>
         [{ ctype := .deleted, file := p, old_hash := some bi.hash, timestamp := now }]
       | none, none => []) := by
  unfold compare_with_baseline
  rw [List.filter_append,
    filterMap_filter_key (currentEntryChange b now) p (currentEntryChange_file b now) c hc,
    filterMap_filter_key (deletedEntryChange c now) p (deletedEntryChange_file c now) b hb]
  cases hlb : lookupPath p b with
  | none =>
    cases hlc : lookupPath p c with
    | none => simp
    | some ci => simp [currentEntryChange, hlb]
  | some bi =>
    cases hlc : lookupPath p c with
    | none => simp [deletedEntryChange, hlc]
    | some ci =>
      by_cases hh : bi.hash = ci.hash
      · have hne : ¬ (ci.hash ≠ bi.hash) := by simp [hh.symm]
        simp [currentEntryChange, deletedEntryChange, hlb, hlc, hne, hh]
      · have hne : ci.hash ≠ bi.hash := fun hcb => hh hcb.symm
        simp [currentEntryChange, deletedEntryChange, hlb, hlc, hne, hh]

theorem c1_diff_classification_witness :
    (compare_with_baseline [("/data/a.txt", ⟨"h1", 5, 1⟩)]
        [("/data/a.txt", ⟨"h2", 5, 2⟩)] "t").filter
      (fun r => r.file = "/data/a.txt") =
      [{ ctype := .modified, file := "/data/a.txt", old_hash := some "h1",
         new_hash := some "h2", timestamp := "t" }] := by
  have h := c1_diff_classification [("/data/a.txt", ⟨"h1", 5, 1⟩)]
    [("/data/a.txt", ⟨"h2", 5, 2⟩)] "t" "/data/a.txt" (by decide) (by decide)
  rw [h]
  decide

/-- C5: diffing a well-formed snapshot against itself yields no change
records: `compare_with_baseline S S now = []`. -/
theorem c5_diff_self_empty (s : Snapshot) (now : String) (hs : wf s) :
    compare_with_baseline s s now = [] := by
  unfold compare_with_baseline
  have h1 : s.filterMap (currentEntryChange s now) = [] := by
    rw [List.filterMap_eq_nil_iff]
    intro e he
    obtain ⟨q, i⟩ := e
    have hl : lookupPath q s = some i := lookupPath_mem s hs he
    simp [currentEntryChange, hl]
  have h2 : s.filterMap (deletedEntryChange s now) = [] := by
    rw [List.filterMap_eq_nil_iff]
    intro e he
    obtain ⟨q, i⟩ := e
    have hl : lookupPath q s = some i := lookupPath_mem s hs he
    simp [deletedEntryChange, hl]
  rw [h1, h2]
  rfl

theorem c5_diff_self_empty_witness :
    compare_with_baseline
      [("/etc/passwd", ⟨"h1", 3, 1⟩), ("/etc/hosts", ⟨"h2", 4, 2⟩)]
      [("/etc/passwd", ⟨"h1", 3, 1⟩), ("/etc/hosts", ⟨"h2", 4, 2⟩)] "t" = [] :=
  c5_diff_self_empty
    [("/etc/passwd", ⟨"h1", 3, 1⟩), ("/etc/hosts", ⟨"h2", 4, 2⟩)] "t" (by decide)

/-- C4: a path matched by some exclusion rule (wildcard-prefix or
exact/directory rule) is never a key of the snapshot built by either agent's
scanner, whatever the monitored roots: exclusion short-circuits inclusion. -/
theorem c4_exclusion_never_in_snapshot (excludedPaths monitoredPaths : List String)
    (disk : Disk) (p : String) (hex : is_excluded_path excludedPaths p = true) :
    lookupPath p (scan_directory excludedPaths monitoredPaths disk) = none ∧
    lookupPath p (create_baseline_snapshot excludedPaths disk) = none := by
  constructor
  · rw [lookupPath_eq_none_iff]
    intro e he heq
    rw [scan_directory] at he
    rcases List.mem_filterMap.mp he with ⟨d, _, hfd⟩
    split at hfd
    · rename_i hmon
      rcases Option.map_eq_some'.mp hfd with ⟨i, _, hei⟩
      have hdp : d.1 = p := by rw [← heq, ← hei]
      rw [hdp, should_monitor_path, hex] at hmon
      simp at hmon
    · cases hfd
  · rw [lookupPath_eq_none_iff]
    intro e he heq
    rw [create_baseline_snapshot] at he
    rcases List.mem_filterMap.mp he with ⟨d, _, hfd⟩
    split at hfd
    · cases hfd
    · rename_i hnex
      rcases Option.map_eq_some'.mp hfd with ⟨i, _, hei⟩
      have hdp : d.1 = p := by rw [← heq, ← hei]
      rw [hdp] at hnex
      exact hnex hex

theorem c4_exclusion_never_in_snapshot_witness :
    lookupPath "/data/tmp/x.log"
      (scan_directory ["/data/tmp*"] ["/data"]
        [("/data/tmp/x.log", some ⟨"h", 1, 1⟩)]) = none ∧
    lookupPath "/data/tmp/x.log"
      (create_baseline_snapshot ["/data/tmp*"]
        [("/data/tmp/x.log", some ⟨"h", 1, 1⟩)]) = none :=
  c4_exclusion_never_in_snapshot ["/data/tmp*"] ["/data"]
    [("/data/tmp/x.log", some ⟨"h", 1, 1⟩)] "/data/tmp/x.log" (by decide)

/-- C2 counterexample: in the basic agent, a cycle whose diff is empty (same
fingerprint, drifted mtime) still invokes `save_baseline`, and the persisted
baseline contents change. -/
theorem c2_counterexample :
    (perform_scan_outcome [("/data/a.txt", ⟨"h", 5, 1⟩)]
        [("/data/a.txt", ⟨"h", 5, 2⟩)] true "t").changes = [] ∧
    (perform_scan_outcome [("/data/a.txt", ⟨"h", 5, 1⟩)]
        [("/data/a.txt", ⟨"h", 5, 2⟩)] true "t").baselineSaved = true ∧
    (perform_scan_outcome [("/data/a.txt", ⟨"h", 5, 1⟩)]
        [("/data/a.txt", ⟨"h", 5, 2⟩)] true "t").savedBaseline ≠
      [("/data/a.txt", ⟨"h", 5, 1⟩)] := by
  decide

/-- C2 (amended): the basic agent's `perform_scan` saves the fresh snapshot as
baseline unconditionally, even on a zero-change cycle; the Prometheus agent's
`scan_files` leaves both the baseline and the report untouched when the diff
is empty. -/
theorem c2_zero_change_baseline (b c : Snapshot) (aoc : Bool) (now : String)
    (excludedPaths : List String) (th : Nat) (disk : Disk) :
    (perform_scan_outcome b c aoc now).baselineSaved = true ∧
    (scan_files_changes excludedPaths b disk now = [] →
      (scan_files_outcome excludedPaths th b disk now).baselineUpdated = false ∧
      (scan_files_outcome excludedPaths th b disk now).reportSaved = false) := by
  constructor
  · rfl
  · intro h
    simp [scan_files_outcome, h]

theorem c2_zero_change_baseline_witness :
    (scan_files_outcome [] 10 [] [] "t").baselineUpdated = false ∧
    (scan_files_outcome [] 10 [] [] "t").reportSaved = false :=
  (c2_zero_change_baseline [] [] true "t" [] 10 []).2 (by decide)

/-- C3 counterexample: with no baseline persisted, the Prometheus agent's
`load_baseline` builds and persists a fresh baseline (and returns it non-empty
when the disk is non-empty), instead of returning the empty snapshot. -/
theorem c3_counterexample :
    (load_baseline_prom none [] [("/data/a.txt", some ⟨"h", 5, 1⟩)]).baselineCreated = true ∧
    (load_baseline_prom none [] [("/data/a.txt", some ⟨"h", 5, 1⟩)]).snapshot ≠ [] := by
  decide

/-- C3 (amended): when no baseline is persisted, the basic agent's
`load_baseline` returns the empty snapshot without writing anything, while the
Prometheus agent's `load_baseline` calls `create_baseline`: it builds a
snapshot from the walked disk, persists it, and returns it. -/
theorem c3_load_bootstrap (excludedPaths : List String) (disk : Disk) :
    load_baseline_basic none = { snapshot := [], baselineCreated := false } ∧
    load_baseline_prom none excludedPaths disk =
      { snapshot := create_baseline_snapshot excludedPaths disk,
        baselineCreated := true } :=
  ⟨rfl, rfl⟩

/-- C6 counterexample: with alert threshold 0 configured, a completed cycle
with 0 changes has change count ≥ threshold, yet no alert fires (the alert
check sits inside `if changes:`). -/
theorem c6_counterexample :
    0 ≤ (scan_files_outcome [] 0 [] [] "t").changes.length ∧
    (scan_files_outcome [] 0 [] [] "t").alertFired = false := by
  decide

/-- C6 (amended): in the Prometheus agent the high-severity alert fires iff
the cycle's change list is non-empty AND its length meets the threshold; with
threshold 10, a cycle of 11 changes fires the alert and a cycle of 9 does not. -/
theorem c6_alert_threshold (excludedPaths : List String) (th : Nat) (b : Snapshot)
    (disk : Disk) (now : String) :
    ((scan_files_outcome excludedPaths th b disk now).alertFired = true ↔
      ((scan_files_outcome excludedPaths th b disk now).changes ≠ [] ∧
        th ≤ (scan_files_outcome excludedPaths th b disk now).changes.length)) ∧
    (scan_files_outcome [] 10 []
      [("/d/f01", some ⟨"h", 1, 1⟩), ("/d/f02", some ⟨"h", 1, 1⟩),
       ("/d/f03", some ⟨"h", 1, 1⟩), ("/d/f04", some ⟨"h", 1, 1⟩),
       ("/d/f05", some ⟨"h", 1, 1⟩), ("/d/f06", some ⟨"h", 1, 1⟩),
       ("/d/f07", some ⟨"h", 1, 1⟩), ("/d/f08", some ⟨"h", 1, 1⟩),
       ("/d/f09", some ⟨"h", 1, 1⟩), ("/d/f10", some ⟨"h", 1, 1⟩),
       ("/d/f11", some ⟨"h", 1, 1⟩)] "t").alertFired = true ∧
    (scan_files_outcome [] 10 []
      [("/d/f01", some ⟨"h", 1, 1⟩), ("/d/f02", some ⟨"h", 1, 1⟩),
       ("/d/f03", some ⟨"h", 1, 1⟩), ("/d/f04", some ⟨"h", 1, 1⟩),
       ("/d/f05", some ⟨"h", 1, 1⟩), ("/d/f06", some ⟨"h", 1, 1⟩),
       ("/d/f07", some ⟨"h", 1, 1⟩), ("/d/f08", some ⟨"h", 1, 1⟩),
       ("/d/f09", some ⟨"h", 1, 1⟩)] "t").alertFired = false := by
  refine ⟨?_, by decide, by decide⟩
  unfold scan_files_outcome
  cases h : (scan_files_changes excludedPaths b disk now).isEmpty with
  | true =>
    simp only [h, if_true]
    simp [List.isEmpty_iff.mp h]
  | false =>
    simp only [h, Bool.false_eq_true, if_false]
    have hne : scan_files_changes excludedPaths b disk now ≠ [] := by
      intro hnil
      rw [hnil] at h
      cases h
    simp [hne]

/-- C7 counterexample: a DELETED record emitted by the Prometheus agent's scan
carries no fingerprint at all — its only keys are type, path, timestamp. -/
theorem c7_counterexample :
    (scan_files_changes [] [("/data/a.txt", ⟨"h1", 5, 1⟩)] [] "t").map
      (fun r => (r.ctype, r.old_hash, r.new_hash, r.hash)) =
      [(ChangeType.deleted, none, none, none)] := by
  decide

/-- C7 (amended): every MODIFIED record of either agent carries both the
baseline (old) and the current (new) fingerprint, and in the basic agent's
diff every DELETED record carries the baseline fingerprint of its path; but in
the Prometheus agent's scan a DELETED record carries no fingerprint (all hash
fields absent). -/
theorem c7_record_fingerprints (b c : Snapshot) (now : String)
    (excludedPaths : List String) (disk : Disk) :
    (∀ r ∈ compare_with_baseline b c now,
      (r.ctype = ChangeType.deleted →
        ∃ bi, (r.file, bi) ∈ b ∧ r.old_hash = some bi.hash) ∧
      (r.ctype = ChangeType.modified →
        (∃ bi, lookupPath r.file b = some bi ∧ r.old_hash = some bi.hash) ∧
        (∃ ci, (r.file, ci) ∈ c ∧ r.new_hash = some ci.hash))) ∧
    (∀ r ∈ scan_files_changes excludedPaths b disk now,
      r.ctype = ChangeType.modified →
      (∃ bi, lookupPath r.file b = some bi ∧ r.old_hash = some bi.hash) ∧
      (∃ ci, (r.file, some ci) ∈ disk ∧ r.new_hash = some ci.hash)) ∧
    (∀ r ∈ scan_files_changes excludedPaths b disk now,
      r.ctype = ChangeType.deleted →
      r.old_hash = none ∧ r.new_hash = none ∧ r.hash = none) := by
  refine ⟨?_, ?_, ?_⟩
  · intro r hr
    rcases List.mem_append.mp hr with h1 | h1
    · rcases List.mem_filterMap.mp h1 with ⟨⟨q, ci⟩, hm, hf⟩
      unfold currentEntryChange at hf
      split at hf
      · rename_i bi hlk
        split at hf
        · cases hf
          refine ⟨fun hk => ChangeType.noConfusion hk, fun _ => ⟨⟨bi, hlk, rfl⟩, ⟨ci, hm, rfl⟩⟩⟩
        · cases hf
      · cases hf
        exact ⟨fun hk => ChangeType.noConfusion hk, fun hk => ChangeType.noConfusion hk⟩
    · rcases List.mem_filterMap.mp h1 with ⟨⟨q, bi⟩, hm, hf⟩
      unfold deletedEntryChange at hf
      split at hf
      · cases hf
        exact ⟨fun _ => ⟨bi, hm, rfl⟩, fun hk => ChangeType.noConfusion hk⟩
      · cases hf
  · intro r hr hk
    rcases List.mem_append.mp hr with h1 | h1
    · rcases List.mem_filterMap.mp h1 with ⟨⟨q, oi⟩, hdm, hf⟩
      split at hf
      · cases hf
      · unfold check_file at hf
        split at hf
        · rename_i bi hlk
          split at hf
          · rename_i h hmap
            split at hf
            · cases hf
              refine ⟨⟨bi, hlk, rfl⟩, ?_⟩
              rcases Option.map_eq_some'.mp hmap with ⟨i, hoi, hih⟩
              have hoi2 : oi = some i := hoi
              rw [hoi2] at hdm
              exact ⟨i, hdm, by rw [hih]⟩
            · cases hf
          · cases hf
        · split at hf
          · cases hf
            cases hk
          · cases hf
    · rcases List.mem_filterMap.mp h1 with ⟨⟨q, bi⟩, _, hf⟩
      split at hf
      · cases hf
      · cases hf
        cases hk
  · intro r hr hk
    rcases List.mem_append.mp hr with h1 | h1
    · rcases List.mem_filterMap.mp h1 with ⟨⟨q, oi⟩, _, hf⟩
      split at hf
      · cases hf
      · exact absurd hk (check_file_not_deleted b now q (oi.map FileInfo.hash) r hf)
    · rcases List.mem_filterMap.mp h1 with ⟨⟨q, bi⟩, _, hf⟩
      split at hf
      · cases hf
      · cases hf
        exact ⟨rfl, rfl, rfl⟩

theorem c7_record_fingerprints_witness :
    (∃ bi, (("/data/b.txt" : String), bi) ∈
        ([("/data/b.txt", ⟨"h1", 5, 1⟩)] : Snapshot) ∧
      ({ ctype := ChangeType.deleted, file := "/data/b.txt", old_hash := some "h1",
         timestamp := "t" } : Change).old_hash = some bi.hash) ∧
    (∃ ci, (("/data/c.txt" : String), some ci) ∈
        ([("/data/c.txt", some ⟨"h2", 5, 2⟩)] : Disk) ∧
      ({ ctype := ChangeType.modified, file := "/data/c.txt", old_hash := some "h1",
         new_hash := some "h2", timestamp := "t" } : Change).new_hash = some ci.hash) ∧
    ({ ctype := ChangeType.deleted, file := "/data/a.txt",
       timestamp := "t" } : Change).old_hash = none :=
  ⟨((c7_record_fingerprints [("/data/b.txt", ⟨"h1", 5, 1⟩)] [] "t" [] []).1
      { ctype := ChangeType.deleted, file := "/data/b.txt", old_hash := some "h1",
        timestamp := "t" } (by decide)).1 rfl,
   (((c7_record_fingerprints [("/data/c.txt", ⟨"h1", 5, 1⟩)] [] "t" []
        [("/data/c.txt", some ⟨"h2", 5, 2⟩)]).2.1
      { ctype := ChangeType.modified, file := "/data/c.txt", old_hash := some "h1",
        new_hash := some "h2", timestamp := "t" } (by decide) rfl).2),
   ((c7_record_fingerprints [("/data/a.txt", ⟨"h1", 5, 1⟩)] [] "t" [] []).2.2
      { ctype := ChangeType.deleted, file := "/data/a.txt", timestamp := "t" }
      (by decide) rfl).1⟩

/-- C8 counterexample: the Prometheus agent's `save_report` rewrites the report
file with only the latest cycle's record; a previously persisted record is no
longer present afterwards. -/
theorem c8_counterexample :
    ({ timestamp := "t1",
       changes := [{ ctype := ChangeType.new, file := "/data/a.txt",
                     hash := some "h1", timestamp := "t1" }],
       total_changes := 1 } : Report) ∉
      save_report_store
        [{ timestamp := "t1",
           changes := [{ ctype := ChangeType.new, file := "/data/a.txt",
                         hash := some "h1", timestamp := "t1" }],
           total_changes := 1 }]
        [{ ctype := ChangeType.new, file := "/data/b.txt", hash := some "h2",
           timestamp := "t2" }] "t2" := by
  decide

/-- C8 (amended): the basic agent's `report_changes` is append-only — after a
cycle with changes the persisted records are exactly the old records followed
by the new one — while the Prometheus agent's `save_report` replaces the
persisted state with just the latest record. -/
theorem c8_report_persistence (existing : List Report) (changes : List Change)
    (now : String) :
    (changes ≠ [] →
      report_changes_store existing changes now =
        existing ++
          [{ timestamp := now, changes := changes, total_changes := changes.length }]) ∧
    save_report_store existing changes now =
      [{ timestamp := now, changes := changes, total_changes := changes.length }] := by
  constructor
  · intro h
    simp [report_changes_store, h]
  · rfl

theorem c8_report_persistence_witness :
    report_changes_store
      [{ timestamp := "t1", changes := [], total_changes := 0 }]
      [{ ctype := ChangeType.new, file := "/data/b.txt", hash := some "h2",
         timestamp := "t2" }] "t2" =
      [{ timestamp := "t1", changes := [], total_changes := 0 }] ++
        [{ timestamp := "t2",
           changes := [{ ctype := ChangeType.new, file := "/data/b.txt",
                         hash := some "h2", timestamp := "t2" }],
           total_changes := 1 }] :=
  (c8_report_persistence [{ timestamp := "t1", changes := [], total_changes := 0 }]
    [{ ctype := ChangeType.new, file := "/data/b.txt", hash := some "h2",
       timestamp := "t2" }] "t2").1 (by decide)

/-- C9 counterexample: the baseline write performs no rename at all, and after
its first primitive step (truncate-on-open of the baseline file itself) a
reader of the baseline file observes `""` — neither the old nor the new
baseline: a partially written baseline is observable and the old content is
already destroyed before the write completes. -/
theorem c9_counterexample :
    ((save_baseline_ops "/var/lib/fim/baseline.json" "NEW").all
      fun op => !(isRename op)) = true ∧
    getFile (runOps [("/var/lib/fim/baseline.json", "OLD")]
        ((save_baseline_ops "/var/lib/fim/baseline.json" "NEW").take 1))
      "/var/lib/fim/baseline.json" = some "" := by
  decide

/-- C9 (amended): `save_baseline` / `create_baseline` write the new baseline
directly to the baseline path — truncate on open, then write, with no
temporary file and no rename — so between the two steps a reader observes an
empty (truncated) baseline; only after the final write does the file hold the
new content. -/
theorem c9_save_baseline_not_atomic (bf data old : String) :
    save_baseline_ops bf data = [FSOp.openTrunc bf, FSOp.writeAll bf data] ∧
    getFile (runOps [(bf, old)] ((save_baseline_ops bf data).take 1)) bf = some "" ∧
    getFile (runOps [(bf, old)] (save_baseline_ops bf data)) bf = some data := by
  refine ⟨rfl, ?_, ?_⟩
  · simp [save_baseline_ops, runOps, applyOp, setFile, getFile]
  · simp [save_baseline_ops, runOps, applyOp, setFile, getFile]

/-- C10: in the Prometheus agent's scan, a path that is in the baseline and
still exists on disk but whose hash computation failed produces no change
record at all: the MODIFIED branch is skipped (`if current_hash and ...`) and
the DELETED loop only tests existence. -/
theorem c10_unreadable_file_no_record (excludedPaths : List String)
    (baseline : Snapshot) (disk : Disk) (p now : String)
    (hd : (disk.map Prod.fst).Nodup)
    (hdisk : (p, (none : Option FileInfo)) ∈ disk)
    (hbase : lookupPath p baseline ≠ none) :
    (scan_files_changes excludedPaths baseline disk now).filter
      (fun r => r.file = p) = [] := by
  rw [scan_files_changes, List.filter_append, List.append_eq_nil]
  constructor
  · rw [List.filter_eq_nil_iff]
    intro r hr
    rcases List.mem_filterMap.mp hr with ⟨⟨q, oi⟩, hdm, hfd⟩
    split at hfd
    · cases hfd
    · have hrf : r.file = q := check_file_file baseline now q (oi.map FileInfo.hash) r hfd
      simp only [decide_eq_true_eq]
      intro hrp
      have hqp : q = p := by rw [← hrf, hrp]
      subst hqp
      have hoi : oi = none := mem_key_unique hd hdm hdisk
      subst hoi
      dsimp only at hfd
      rw [Option.map_none', check_file_hash_none] at hfd
      cases hfd
  · rw [List.filter_eq_nil_iff]
    intro r hr
    rcases List.mem_filterMap.mp hr with ⟨⟨q, bi⟩, hbm, hfb⟩
    split at hfb
    · cases hfb
    · rename_i hdh
      cases hfb
      simp only [decide_eq_true_eq]
      intro hqp
      apply hdh
      rw [hqp, diskHas, List.any_eq_true]
      exact ⟨(p, none), hdisk, by simp⟩

theorem c10_unreadable_file_no_record_witness :
    (scan_files_changes [] [("/data/a.txt", ⟨"h1", 5, 1⟩)]
        [("/data/a.txt", none)] "t").filter (fun r => r.file = "/data/a.txt") = [] :=
  c10_unreadable_file_no_record [] [("/data/a.txt", ⟨"h1", 5, 1⟩)]
    [("/data/a.txt", none)] "/data/a.txt" "t" (by decide) (by decide) (by decide)

end FIM
